import Mathlib

/-!
Verification development for the nonebot-plugin-trans-progress repository.

The definitions below are a shallow embedding of the plugin's core logic:

* `attemptAdvance` — the guarded stage advance of the 完成 command
  (`__init__.py`, `cmd_finish`): permission check, status dispatch,
  default-deadline stamping, completion-notification target.
* `applyEdit` / `check_role_change` — the administrative edit diff of
  `web.py`'s `update_episode`.
* `add_episode` (`web.py`) and `add_project_episode` (`utils.py`) — the
  two episode-creation paths.
* `check_deadlines` (`scheduler.py`) and `check_and_send_broadcast`
  (`broadcast.py`) — the scheduled and the per-group deadline scans.
* `update_setting` / `delete_episode` — the cited HTTP operations.

Datetimes are modelled as an absolute calendar-day number (`date : Int`)
plus a time-of-day in minutes (`tod : Nat`); `dtLt` is the usual
timestamp order used by Python's `<` on datetimes, and `.date`
corresponds to Python's `.date()`.  Chat messages that mention users are
modelled as lists of segments (`MsgSeg`), mirroring OneBot `Message` +
`MessageSegment.at`.
-/

/-- A datetime: absolute day number plus minutes within the day.
`date` plays the role of Python's `dt.date()`. -/
structure DateTime where
  date : Int
  tod : Nat
deriving DecidableEq, Repr

/-- Timestamp order on datetimes (Python `dt1 < dt2`). -/
def dtLt (a b : DateTime) : Bool :=
  a.date < b.date || (a.date == b.date && a.tod < b.tod)

/-- A `User` row: database primary key, platform (qq) id, display name. -/
structure User where
  uid : Nat
  qq_id : String
  name : String
deriving DecidableEq, Repr

/-- A `Project` row: the fields the verified operations read. -/
structure Project where
  name : String
  group_id : String
  leader : Option User
  default_translator : Option User
  default_proofreader : Option User
  default_typesetter : Option User
  default_supervisor : Option User
deriving DecidableEq, Repr

/-- An `Episode` row.  `group_id` and `project_name` denormalize
`ep.project.group_id` / `ep.project.name`, which the scans read through
the prefetched relation. -/
structure Episode where
  id : Nat
  group_id : String
  project_name : String
  title : String
  status : Nat
  translator : Option User
  proofreader : Option User
  typesetter : Option User
  supervisor : Option User
  ddl_trans : Option DateTime
  ddl_proof : Option DateTime
  ddl_type : Option DateTime
  ddl_supervision : Option DateTime
deriving DecidableEq, Repr

/-- Does the optional assignee's qq id match the acting user
(`episode.translator.qq_id == qq_id` guarded by a null check)? -/
def qqMatches (u : Option User) (qq : String) : Bool :=
  match u with
  | some x => x.qq_id == qq
  | none => false

/-- `user.name` with the `"未分配"` fallback used for the denial text. -/
def assigneeNameOr (u : Option User) : String :=
  match u with
  | some x => x.name
  | none => "未分配"

/-- Outcome of the guarded advance in `cmd_finish`. -/
inductive AdvanceResult where
  | alreadyTerminal
  | stageUnassigned
  | permissionDenied (stage : String) (assigneeName : String)
  | ok (ep : Episode) (nextRole : String) (nextUser : Option User)
deriving DecidableEq, Repr

/-- The guarded stage advance of `cmd_finish` (`__init__.py`).
`senderRole` is `event.sender.role`; `defaultDdl` is the value
`get_default_ddl()` returns at transition time.  The code computes the
current stage's assignee match for statuses 1..3, finishes early with
the terminal / not-started messages for status 4 / anything else, then
checks assignee-or-leader-or-admin and performs the transition,
stamping the next stage's deadline only when it is unset. -/
def attemptAdvance (project : Project) (ep : Episode) (qq : String)
    (senderRole : String) (defaultDdl : DateTime) : AdvanceResult :=
  let isLeader := qqMatches project.leader qq
  let isAdmin := senderRole == "owner" || senderRole == "admin"
  if ep.status == 1 then
    if qqMatches ep.translator qq || isLeader || isAdmin then
      .ok { ep with status := 2, ddl_proof := some (ep.ddl_proof.getD defaultDdl) }
        "校对" ep.proofreader
    else
      .permissionDenied "翻译" (assigneeNameOr ep.translator)
  else if ep.status == 2 then
    if qqMatches ep.proofreader qq || isLeader || isAdmin then
      .ok { ep with status := 3, ddl_type := some (ep.ddl_type.getD defaultDdl) }
        "嵌字" ep.typesetter
    else
      .permissionDenied "校对" (assigneeNameOr ep.proofreader)
  else if ep.status == 3 then
    if qqMatches ep.typesetter qq || isLeader || isAdmin then
      .ok { ep with status := 4 } "发布" none
    else
      .permissionDenied "嵌字" (assigneeNameOr ep.typesetter)
  else if ep.status == 4 then
    .alreadyTerminal
  else
    .stageUnassigned

/-- A group-member record as returned by `get_group_member_list`. -/
structure GroupMember where
  user_id : String
  role : String
deriving DecidableEq, Repr

/-- Completion-notification target of `cmd_finish` when the episode
reaches status 4: the project leader's qq if a leader is set, otherwise
the first member of the group member list whose role is `"owner"`. -/
def finishTargetQq (leader : Option User) (memberList : List GroupMember) :
    Option String :=
  match leader with
  | some l => some l.qq_id
  | none => (memberList.find? (fun m => m.role == "owner")).map (fun m => m.user_id)

/-- Follows the spec's words, for comparison with `finishTargetQq`: the
project leader, falling back to the group's first resolvable
administrator (a member whose role is owner or admin). -/
def finishTargetSpecced (leader : Option User) (memberList : List GroupMember) :
    Option String :=
  match leader with
  | some l => some l.qq_id
  | none =>
    (memberList.find? (fun m => m.role == "owner" || m.role == "admin")).map
      (fun m => m.user_id)

/-- One segment of a chat message (plain text or an @-mention). -/
inductive MsgSeg where
  | text (s : String)
  | mention (qq : String)
deriving DecidableEq, Repr

/-- The tail of the completion reply: `请 @target 查收发布。` when a
target resolved, the generic `请管理员查收发布。` otherwise. -/
def finishTailSegs (target : Option String) : List MsgSeg :=
  match target with
  | some q => [.text "\n请 ", .mention q, .text " 查收发布。"]
  | none => [.text "\n请管理员查收发布。"]

/-- The qq ids mentioned by a message. -/
def segMentions (l : List MsgSeg) : List String :=
  l.filterMap (fun s => match s with | .mention q => some q | .text _ => none)

/-- The fields submitted by the episode edit form of `web.py`'s
`update_episode`, after the `*_qq` fields have been resolved to `User`
rows by `get_db_user` and the deadlines passed through `ensure_aware`. -/
structure EpisodeForm where
  title : String
  status : Nat
  translator : Option User
  proofreader : Option User
  typesetter : Option User
  supervisor : Option User
  ddl_trans : Option DateTime
  ddl_proof : Option DateTime
  ddl_type : Option DateTime
  ddl_supervision : Option DateTime
deriving DecidableEq, Repr

/-- `strftime('%m-%d')` with the `"未定"` fallback: renders only the
calendar date of a deadline, never its time-of-day. -/
def fmt_date (d : Option DateTime) : String :=
  match d with
  | some x => toString x.date
  | none => "未定"

/-- `user.name` with the `"未分配"` fallback of `fmt_user`. -/
def fmt_user (u : Option User) : String :=
  match u with
  | some x => x.name
  | none => "未分配"

/-- The `status_map` of `update_episode` (the extended variant, with
监修 = 4 and 完结 = 5), falling back to the raw number. -/
def status_text (s : Nat) : String :=
  if s == 0 then "未开始"
  else if s == 1 then "翻译"
  else if s == 2 then "校对"
  else if s == 3 then "嵌字"
  else if s == 4 then "监修"
  else if s == 5 then "完结"
  else toString s

/-- The structured result of the edit diff: ordered change lines plus
the deduplicated set of qq ids to mention (`mentions_qq` is a Python
set). -/
structure ChangeSet where
  changes : List String
  mentions : Finset String
deriving DecidableEq

/-- The per-role diff step `check_role_change` of `update_episode`:
assignees are compared by database id, deadlines by full value
(`old_ddl != new_ddl` on datetimes); a deadline change mentions the new
assignee of that stage, falling back to the old one. -/
def check_role_change (label : String) (old_u new_u : Option User)
    (old_ddl new_ddl : Option DateTime) : List String × Finset String :=
  let roleStep : List String × Finset String :=
    if old_u.map User.uid ≠ new_u.map User.uid then
      ([label ++ ": " ++ fmt_user old_u ++ " -> " ++ fmt_user new_u],
        match new_u with | some u => {u.qq_id} | none => ∅)
    else ([], ∅)
  let ddlStep : List String × Finset String :=
    if old_ddl ≠ new_ddl then
      ([label ++ "DDL: " ++ fmt_date old_ddl ++ " -> " ++ fmt_date new_ddl],
        match (if new_u.isSome then new_u else old_u) with
        | some u => {u.qq_id} | none => ∅)
    else ([], ∅)
  (roleStep.1 ++ ddlStep.1, roleStep.2 ∪ ddlStep.2)

/-- The mention added by a status change: the (new) assignee of the
stage the status moved to, when one is set. -/
def statusMention (form : EpisodeForm) : Finset String :=
  if form.status == 1 then
    match form.translator with | some u => {u.qq_id} | none => ∅
  else if form.status == 2 then
    match form.proofreader with | some u => {u.qq_id} | none => ∅
  else if form.status == 3 then
    match form.typesetter with | some u => {u.qq_id} | none => ∅
  else if form.status == 4 then
    match form.supervisor with | some u => {u.qq_id} | none => ∅
  else ∅

/-- The administrative edit of `web.py`'s `update_episode`: diffs the
old episode against the form (title, status, then each role with its
deadline in pipeline order), then overwrites every tracked field.
Returns the ChangeSet together with the updated episode. -/
def applyEdit (ep : Episode) (form : EpisodeForm) : ChangeSet × Episode :=
  let titleChanges : List String :=
    if ep.title ≠ form.title then
      ["标题: " ++ ep.title ++ " -> " ++ form.title]
    else []
  let statusStep : List String × Finset String :=
    if ep.status ≠ form.status then
      (["状态: " ++ status_text ep.status ++ " -> " ++ status_text form.status],
        statusMention form)
    else ([], ∅)
  let c1 := check_role_change "翻译" ep.translator form.translator ep.ddl_trans form.ddl_trans
  let c2 := check_role_change "校对" ep.proofreader form.proofreader ep.ddl_proof form.ddl_proof
  let c3 := check_role_change "嵌字" ep.typesetter form.typesetter ep.ddl_type form.ddl_type
  let c4 := check_role_change "监修" ep.supervisor form.supervisor ep.ddl_supervision form.ddl_supervision
  let ep' := { ep with
    title := form.title, status := form.status,
    translator := form.translator, proofreader := form.proofreader,
    typesetter := form.typesetter, supervisor := form.supervisor,
    ddl_trans := form.ddl_trans, ddl_proof := form.ddl_proof,
    ddl_type := form.ddl_type, ddl_supervision := form.ddl_supervision }
  (⟨titleChanges ++ statusStep.1 ++ c1.1 ++ c2.1 ++ c3.1 ++ c4.1,
    statusStep.2 ∪ c1.2 ∪ c2.2 ∪ c3.2 ∪ c4.2⟩, ep')

/-- The notification guard of `update_episode`: a message is sent iff
the change list is nonempty (`if changes:`). -/
def editSendsMessage (cs : ChangeSet) : Bool :=
  !cs.changes.isEmpty

/-- The form whose values are exactly the episode's current values. -/
def formOf (ep : Episode) : EpisodeForm :=
  ⟨ep.title, ep.status, ep.translator, ep.proofreader, ep.typesetter,
    ep.supervisor, ep.ddl_trans, ep.ddl_proof, ep.ddl_type, ep.ddl_supervision⟩

/-- The episode-creation form of `web.py`'s `add_episode`, after user
resolution and `ensure_aware` (which leaves the value's date and time
unchanged). -/
structure EpisodeCreate where
  title : String
  translator : Option User
  proofreader : Option User
  typesetter : Option User
  supervisor : Option User
  ddl_trans : Option DateTime
  ddl_proof : Option DateTime
  ddl_type : Option DateTime
  ddl_supervision : Option DateTime
deriving DecidableEq, Repr

/-- The HTTP `add_episode` of `web.py`: creates the episode with
status 1 and the assignees and deadlines submitted in the form. -/
def add_episode (newId : Nat) (project : Project) (f : EpisodeCreate) : Episode :=
  { id := newId, group_id := project.group_id, project_name := project.name,
    title := f.title, status := 1,
    translator := f.translator, proofreader := f.proofreader,
    typesetter := f.typesetter, supervisor := f.supervisor,
    ddl_trans := f.ddl_trans, ddl_proof := f.ddl_proof,
    ddl_type := f.ddl_type, ddl_supervision := f.ddl_supervision }

/-- The three staff roles of the JSON data store in `utils.py`
(the dict keys 翻译 / 校对 / 嵌字). -/
inductive JRole where
  | translate
  | proofread
  | typeset
deriving DecidableEq, Repr

/-- The per-role staff lists of a project's `default` dict. -/
structure RoleLists where
  transStaff : List String
  proofStaff : List String
  typeStaff : List String
deriving DecidableEq, Repr

/-- One episode entry of the JSON store: per-role staff lists plus the
`completed` flag. -/
structure JEpisode where
  transStaff : List String
  proofStaff : List String
  typeStaff : List String
  completed : Bool
deriving DecidableEq, Repr

/-- One project entry of the JSON store (`utils.py`'s `data[project]`):
the default staff lists and the episode dict, insertion-ordered. -/
structure ProjectData where
  defaultStaff : RoleLists
  episodes : List (String × JEpisode)
deriving DecidableEq, Repr

/-- Read one role's list from the `default` dict. -/
def getRole (r : JRole) (l : RoleLists) : List String :=
  match r with
  | .translate => l.transStaff
  | .proofread => l.proofStaff
  | .typeset => l.typeStaff

/-- Write one role's list in the `default` dict. -/
def setRole (r : JRole) (v : List String) (l : RoleLists) : RoleLists :=
  match r with
  | .translate => { l with transStaff := v }
  | .proofread => { l with proofStaff := v }
  | .typeset => { l with typeStaff := v }

/-- Dict lookup on the insertion-ordered episode entries. -/
def lookupEp (eps : List (String × JEpisode)) (k : String) : Option JEpisode :=
  (eps.find? (fun p => p.1 == k)).map Prod.snd

/-- `utils.py`'s `add_project_episode`: if the episode key is absent,
insert a new entry that copies (slices, `[:]`) the project's current
default staff lists and starts with `completed = false`; if the key is
present the data is unchanged. -/
def add_project_episode (d : ProjectData) (epKey : String) : ProjectData :=
  if (lookupEp d.episodes epKey).isSome then d
  else
    { d with episodes := d.episodes ++
        [(epKey, ⟨d.defaultStaff.transStaff, d.defaultStaff.proofStaff,
          d.defaultStaff.typeStaff, false⟩)] }

/-- `utils.py`'s `set_default_staff`: replace the role's default list
with the singleton `[member]`. -/
def set_default_staff (d : ProjectData) (r : JRole) (m : String) : ProjectData :=
  { d with defaultStaff := setRole r [m] d.defaultStaff }

/-- `utils.py`'s `add_default_staff`: append the member to the role's
default list when not already present. -/
def add_default_staff (d : ProjectData) (r : JRole) (m : String) : ProjectData :=
  let cur := getRole r d.defaultStaff
  { d with defaultStaff := setRole r (if m ∈ cur then cur else cur ++ [m]) d.defaultStaff }

/-- One line of the scheduled overdue broadcast of `scheduler.py`:
project, episode, stage, the breached deadline, and the qq to mention
(`none` renders `(未分配人员)`). -/
structure OverdueAlert where
  project_name : String
  title : String
  stage : String
  ddl : DateTime
  target : Option String
deriving DecidableEq, Repr

/-- The per-episode test of `scheduler.py`'s `check_deadlines`: for the
current stage (status 1/2/3), the episode is flagged iff that stage's
deadline is set and its full timestamp is strictly before `now`
(`ep.ddl_trans < now` on datetimes). -/
def scanEpisode (now : DateTime) (ep : Episode) : Option OverdueAlert :=
  if ep.status == 1 then
    match ep.ddl_trans with
    | some d =>
      if dtLt d now then
        some ⟨ep.project_name, ep.title, "翻译", d, ep.translator.map User.qq_id⟩
      else none
    | none => none
  else if ep.status == 2 then
    match ep.ddl_proof with
    | some d =>
      if dtLt d now then
        some ⟨ep.project_name, ep.title, "校对", d, ep.proofreader.map User.qq_id⟩
      else none
    | none => none
  else if ep.status == 3 then
    match ep.ddl_type with
    | some d =>
      if dtLt d now then
        some ⟨ep.project_name, ep.title, "嵌字", d, ep.typesetter.map User.qq_id⟩
      else none
    | none => none
  else none

/-- Append an alert to its group's list in the insertion-ordered
grouping (`alerts = defaultdict(list)`; `alerts[gid].append(line)`). -/
def addAlert (acc : List (String × List OverdueAlert)) (gid : String)
    (a : OverdueAlert) : List (String × List OverdueAlert) :=
  match acc with
  | [] => [(gid, [a])]
  | (g, l) :: rest =>
    if g == gid then (g, l ++ [a]) :: rest
    else (g, l) :: addAlert rest gid a

/-- The body of the scan loop of `check_deadlines`: flag the episode
and, when flagged, append the alert to its group. -/
def scanStep (now : DateTime) (acc : List (String × List OverdueAlert))
    (ep : Episode) : List (String × List OverdueAlert) :=
  match scanEpisode now ep with
  | some a => addAlert acc ep.group_id a
  | none => acc

/-- `scheduler.py`'s `check_deadlines`, as a function of the current
time and the episode table: filter the active episodes
(`status__in=[1,2,3]`), flag the overdue ones, and group the alert
lines by the episode's project's group id.  One aggregated message is
then sent per group in the result (every grouped list is nonempty by
construction, so the `if not msg_list: continue` guard never fires). -/
def check_deadlines (now : DateTime) (eps : List Episode) :
    List (String × List OverdueAlert) :=
  let active := eps.filter (fun e => e.status == 1 || e.status == 2 || e.status == 3)
  active.foldl (scanStep now) []

/-- The groups that receive a scheduled broadcast message for a given
scan. -/
def scheduled_broadcast_groups (now : DateTime) (eps : List Episode) : List String :=
  (check_deadlines now eps).map Prod.fst

/-- A wall-clock minute. -/
structure WallClock where
  hour : Nat
  minute : Nat
deriving DecidableEq, Repr

/-- The cron trigger of `scheduler.py`'s `check_deadlines`
(`@scheduler.scheduled_job("cron", hour=10, minute=0)`): the job runs
exactly at the fixed wall-clock minute 10:00. -/
def cron_matches (t : WallClock) : Bool :=
  t.hour == 10 && t.minute == 0

/-- The scheduled broadcast behavior at a given wall-clock minute: the
cron job runs iff the minute is 10:00, and then sends one message per
group with at least one flagged episode.  Note it takes no group
settings: the scheduled path never reads `GroupSetting`. -/
def scheduled_run (t : WallClock) (now : DateTime) (eps : List Episode) :
    List String :=
  if cron_matches t then scheduled_broadcast_groups now eps else []

/-- A `GroupSetting` row. -/
structure GroupSetting where
  group_id : String
  enable_broadcast : Bool
  broadcast_time : String
deriving DecidableEq, Repr

/-- The body of the `settings/update` form. -/
structure SettingUpdate where
  group_id : String
  enable : Bool
  time : String
deriving DecidableEq, Repr

/-- `web.py`'s `update_setting`: `GroupSetting.update_or_create` keyed
on the group id, overwriting the enable flag and the broadcast time. -/
def update_setting (settings : List GroupSetting) (form : SettingUpdate) :
    List GroupSetting :=
  if settings.any (fun s => s.group_id == form.group_id) then
    settings.map (fun s =>
      if s.group_id == form.group_id then ⟨s.group_id, form.enable, form.time⟩
      else s)
  else settings ++ [⟨form.group_id, form.enable, form.time⟩]

/-- Follows the spec's words, for comparison with `scheduled_run`: a
group receives the scheduled broadcast at wall-clock minute `hhmm` iff
its GroupSetting has broadcasting enabled and its configured time
equals `hhmm` (defaulting to enabled at "10:00" when absent). -/
def spec_scheduled_gate (settings : List GroupSetting) (gid : String)
    (hhmm : String) : Bool :=
  match settings.find? (fun s => s.group_id == gid) with
  | some s => s.enable_broadcast && (s.broadcast_time == hhmm)
  | none => "10:00" == hhmm

/-- Urgency classification of a stage deadline in `broadcast.py`'s
`check_and_send_broadcast`: only the calendar dates are compared;
`none` means not urgent. -/
inductive Urgency where
  | overdue (days : Int)
  | dueToday
  | inProgress
deriving DecidableEq, Repr

/-- The urgency branch of `check_and_send_broadcast`: overdue (with the
day difference) when the deadline's date is before today, due-today on
equality, not urgent otherwise. -/
def urgency_of (today : Int) (d : DateTime) : Option Urgency :=
  if d.date < today then some (.overdue (today - d.date))
  else if d.date == today then some .dueToday
  else none

/-- One line of the per-group broadcast. -/
structure BroadcastLine where
  urgency : Urgency
  project_name : String
  title : String
  stage : String
  target : Option String
deriving DecidableEq, Repr

/-- The per-episode step of `check_and_send_broadcast`: pick the
current stage's assignee and deadline, skip episodes without a deadline,
and emit a line when the deadline is urgent — or, on a manual run, an
⏳ in-progress line when it is not. -/
def broadcast_line (today : Int) (is_manual : Bool) (ep : Episode) :
    Option BroadcastLine :=
  let info : String × Option User × Option DateTime :=
    if ep.status == 1 then ("翻译", ep.translator, ep.ddl_trans)
    else if ep.status == 2 then ("校对", ep.proofreader, ep.ddl_proof)
    else if ep.status == 3 then ("嵌字", ep.typesetter, ep.ddl_type)
    else ("", none, none)
  match info.2.2 with
  | none => none
  | some d =>
    match urgency_of today d with
    | some u => some ⟨u, ep.project_name, ep.title, info.1, info.2.1.map User.qq_id⟩
    | none =>
      if is_manual then
        some ⟨.inProgress, ep.project_name, ep.title, info.1, info.2.1.map User.qq_id⟩
      else none

/-- Outcome of `check_and_send_broadcast` for one group. -/
inductive BroadcastResult where
  | silent
  | noTasks
  | report (lines : List BroadcastLine) (is_manual : Bool)
  | allClear
deriving DecidableEq, Repr

/-- `broadcast.py`'s `check_and_send_broadcast`: load the group's
active episodes; with none, reply 当前没有进行中的任务 on a manual run
and stay silent otherwise; with some, collect the urgent (and, on a
manual run, in-progress) lines and send them, or reply 所有任务都在死线内 on a
manual run with no lines. -/
def check_and_send_broadcast (today : Int) (eps : List Episode) (gid : String)
    (is_manual : Bool) : BroadcastResult :=
  let active := eps.filter (fun e =>
    (e.status == 1 || e.status == 2 || e.status == 3) && e.group_id == gid)
  if active.isEmpty then
    if is_manual then .noTasks else .silent
  else
    let lines := active.filterMap (broadcast_line today is_manual)
    if !lines.isEmpty then .report lines is_manual
    else if is_manual then .allClear
    else .silent

/-- The episode table after the HTTP `delete_episode`
(`Episode.filter(id=id).delete()`), together with the response body's
status string — returned unconditionally. -/
def delete_episode (db : List Episode) (i : Nat) : List Episode × String :=
  (db.filter (fun e => e.id != i), "success")

/-- C8: `attemptAdvance` on an episode whose status is Done (4 in the
guarded path's numbering) fails with AlreadyTerminal for every acting
identity, so the terminal outcome never depends on who invokes it and
never degrades to PermissionDenied. -/
theorem C8_done_always_already_terminal (project : Project) (ep : Episode)
    (qq senderRole : String) (defaultDdl : DateTime) (h : ep.status = 4) :
    attemptAdvance project ep qq senderRole defaultDdl = .alreadyTerminal := by
  simp [attemptAdvance, h]

/-- Witness for C8: a Done episode, attempted by an identity that is
neither the stage assignee, the project leader, nor a group admin. -/
theorem C8_witness :
    (⟨1, "g1", "P", "01", 4, some ⟨1, "10001", "A"⟩, none, none, none,
      none, none, none, none⟩ : Episode).status = 4 ∧
    attemptAdvance ⟨"P", "g1", some ⟨9, "10009", "L"⟩, none, none, none, none⟩
      ⟨1, "g1", "P", "01", 4, some ⟨1, "10001", "A"⟩, none, none, none,
        none, none, none, none⟩
      "777" "member" ⟨200, 0⟩ = .alreadyTerminal :=
  ⟨rfl, C8_done_always_already_terminal _ _ _ _ _ rfl⟩

/-- C7: a successful guarded advance out of Translating (resp. Proofing)
changes only the status and the next stage's deadline slot, and that slot
becomes the default deadline exactly when it was unset (`Option.getD`
keeps an already-set deadline); every other field is unchanged. -/
theorem C7_advance_frame (project : Project) (ep : Episode)
    (qq senderRole : String) (defaultDdl : DateTime) (ep' : Episode)
    (nextRole : String) (nextUser : Option User)
    (h : attemptAdvance project ep qq senderRole defaultDdl = .ok ep' nextRole nextUser) :
    (ep.status = 1 →
      ep'.status = 2 ∧ ep'.ddl_proof = some (ep.ddl_proof.getD defaultDdl) ∧
      ep'.title = ep.title ∧ ep'.translator = ep.translator ∧
      ep'.proofreader = ep.proofreader ∧ ep'.typesetter = ep.typesetter ∧
      ep'.supervisor = ep.supervisor ∧ ep'.ddl_trans = ep.ddl_trans ∧
      ep'.ddl_type = ep.ddl_type ∧ ep'.ddl_supervision = ep.ddl_supervision) ∧
    (ep.status = 2 →
      ep'.status = 3 ∧ ep'.ddl_type = some (ep.ddl_type.getD defaultDdl) ∧
      ep'.title = ep.title ∧ ep'.translator = ep.translator ∧
      ep'.proofreader = ep.proofreader ∧ ep'.typesetter = ep.typesetter ∧
      ep'.supervisor = ep.supervisor ∧ ep'.ddl_trans = ep.ddl_trans ∧
      ep'.ddl_proof = ep.ddl_proof ∧ ep'.ddl_supervision = ep.ddl_supervision) := by
  constructor
  · intro hs
    simp only [attemptAdvance, hs] at h
    norm_num at h
    split at h
    · rw [AdvanceResult.ok.injEq] at h
      obtain ⟨he, -, -⟩ := h
      subst he
      simp
    · cases h
  · intro hs
    simp only [attemptAdvance, hs] at h
    norm_num at h
    split at h
    · rw [AdvanceResult.ok.injEq] at h
      obtain ⟨he, -, -⟩ := h
      subst he
      simp
    · cases h

/-- Witness for C7: the stage assignee advances a Translating episode
whose proofing deadline is unset; it is stamped with the default. -/
theorem C7_witness :
    attemptAdvance ⟨"P", "g1", none, none, none, none, none⟩
      ⟨1, "g1", "P", "01", 1, some ⟨1, "10001", "A"⟩, none, none, none,
        some ⟨90, 0⟩, none, none, none⟩
      "10001" "member" ⟨200, 0⟩ =
      .ok ⟨1, "g1", "P", "01", 2, some ⟨1, "10001", "A"⟩, none, none, none,
        some ⟨90, 0⟩, some ⟨200, 0⟩, none, none⟩ "校对" none ∧
    ((⟨1, "g1", "P", "01", 2, some ⟨1, "10001", "A"⟩, none, none, none,
        some ⟨90, 0⟩, some ⟨200, 0⟩, none, none⟩ : Episode).status = 2 ∧
      (⟨1, "g1", "P", "01", 2, some ⟨1, "10001", "A"⟩, none, none, none,
        some ⟨90, 0⟩, some ⟨200, 0⟩, none, none⟩ : Episode).ddl_proof =
        some (((⟨1, "g1", "P", "01", 1, some ⟨1, "10001", "A"⟩, none, none, none,
          some ⟨90, 0⟩, none, none, none⟩ : Episode)).ddl_proof.getD ⟨200, 0⟩) ∧
      True) :=
  ⟨by decide,
    by
      have hall := (C7_advance_frame
        ⟨"P", "g1", none, none, none, none, none⟩
        ⟨1, "g1", "P", "01", 1, some ⟨1, "10001", "A"⟩, none, none, none,
          some ⟨90, 0⟩, none, none, none⟩
        "10001" "member" ⟨200, 0⟩
        ⟨1, "g1", "P", "01", 2, some ⟨1, "10001", "A"⟩, none, none, none,
          some ⟨90, 0⟩, some ⟨200, 0⟩, none, none⟩
        "校对" none (by decide)).1 rfl
      exact ⟨hall.1, hall.2.1, trivial⟩⟩

/-- C6 (amended): every successful guarded advance moves the status to
its immediate successor, and only statuses 1..3 can advance; the guarded
path has no Supervising stage. -/
theorem C6_advance_successor (project : Project) (ep : Episode)
    (qq senderRole : String) (defaultDdl : DateTime) (ep' : Episode)
    (nextRole : String) (nextUser : Option User)
    (h : attemptAdvance project ep qq senderRole defaultDdl = .ok ep' nextRole nextUser) :
    ep'.status = ep.status + 1 ∧ (ep.status = 1 ∨ ep.status = 2 ∨ ep.status = 3) := by
  by_cases h1 : ep.status = 1
  · simp only [attemptAdvance, h1] at h
    norm_num at h
    split at h
    · rw [AdvanceResult.ok.injEq] at h
      obtain ⟨he, -, -⟩ := h
      subst he
      simp [h1]
    · cases h
  · by_cases h2 : ep.status = 2
    · simp only [attemptAdvance, h2] at h
      norm_num at h
      split at h
      · rw [AdvanceResult.ok.injEq] at h
        obtain ⟨he, -, -⟩ := h
        subst he
        simp [h2]
      · cases h
    · by_cases h3 : ep.status = 3
      · simp only [attemptAdvance, h3] at h
        norm_num at h
        split at h
        · rw [AdvanceResult.ok.injEq] at h
          obtain ⟨he, -, -⟩ := h
          subst he
          simp [h3]
        · cases h
      · exfalso
        simp only [attemptAdvance] at h
        rw [if_neg (by simp [h1]), if_neg (by simp [h2]), if_neg (by simp [h3])] at h
        split at h <;> cases h

/-- Counterexample for C6: in the extended numbering a Supervising
episode has status 4; the guarded path treats it as terminal even for
the project leader, so it cannot be advanced to Done this way. -/
theorem C6_counterexample :
    attemptAdvance ⟨"P", "g1", some ⟨9, "10009", "L"⟩, none, none, none, none⟩
      ⟨1, "g1", "P", "01", 4, none, none, none, some ⟨3, "10003", "S"⟩,
        none, none, none, some ⟨120, 0⟩⟩
      "10009" "owner" ⟨200, 0⟩ = .alreadyTerminal := by decide

/-- Witness for C6: a concrete successful advance (Proofing, performed
by the leader) lands on the successor status. -/
theorem C6_witness :
    (⟨1, "g1", "P", "01", 3, none, some ⟨2, "10002", "B"⟩, none, none,
      none, none, some ⟨150, 0⟩, none⟩ : Episode).status =
      (⟨1, "g1", "P", "01", 2, none, some ⟨2, "10002", "B"⟩, none, none,
        none, none, some ⟨150, 0⟩, none⟩ : Episode).status + 1 ∧
    ((⟨1, "g1", "P", "01", 2, none, some ⟨2, "10002", "B"⟩, none, none,
      none, none, some ⟨150, 0⟩, none⟩ : Episode).status = 1 ∨
     (⟨1, "g1", "P", "01", 2, none, some ⟨2, "10002", "B"⟩, none, none,
      none, none, some ⟨150, 0⟩, none⟩ : Episode).status = 2 ∨
     (⟨1, "g1", "P", "01", 2, none, some ⟨2, "10002", "B"⟩, none, none,
      none, none, some ⟨150, 0⟩, none⟩ : Episode).status = 3) :=
  C6_advance_successor ⟨"P", "g1", some ⟨9, "10009", "L"⟩, none, none, none, none⟩
    ⟨1, "g1", "P", "01", 2, none, some ⟨2, "10002", "B"⟩, none, none,
      none, none, some ⟨150, 0⟩, none⟩
    "10009" "member" ⟨200, 0⟩
    ⟨1, "g1", "P", "01", 3, none, some ⟨2, "10002", "B"⟩, none, none,
      none, none, some ⟨150, 0⟩, none⟩
    "嵌字" none (by decide)

/-- C5 (amended): the completion-notification target of the guarded
advance is the project leader when set; otherwise it is the first group
member whose role is exactly `"owner"` (members with role `"admin"` are
skipped); when neither resolves, the reply addresses administrators
generically and mentions nobody. -/
theorem C5_finish_target (leader : Option User) (ml : List GroupMember) :
    (∀ l, leader = some l → finishTargetQq leader ml = some l.qq_id) ∧
    (∀ m, leader = none → ml.find? (fun x => x.role == "owner") = some m →
      finishTargetQq leader ml = some m.user_id) ∧
    (leader = none → ml.find? (fun x => x.role == "owner") = none →
      finishTargetQq leader ml = none) ∧
    (finishTargetQq leader ml = none →
      segMentions (finishTailSegs (finishTargetQq leader ml)) = []) := by
  refine ⟨?_, ?_, ?_, ?_⟩
  · intro l hl
    simp [finishTargetQq, hl]
  · intro m hl hm
    simp [finishTargetQq, hl, hm]
  · intro hl hm
    simp [finishTargetQq, hl, hm]
  · intro hnone
    rw [hnone]
    rfl

/-- Counterexample for C5: with no leader and a member list whose only
entry is an administrator (role `"admin"`), the code resolves no target,
while the spec's "first resolvable administrator" would mention them. -/
theorem C5_counterexample :
    finishTargetQq none [⟨"300", "admin"⟩] = none ∧
    finishTargetSpecced none [⟨"300", "admin"⟩] = some "300" ∧
    segMentions (finishTailSegs (finishTargetQq none [⟨"300", "admin"⟩])) = [] := by
  decide

/-- Witness for C5: a set leader is the target. -/
theorem C5_witness :
    finishTargetQq (some ⟨9, "10009", "L"⟩) [⟨"300", "admin"⟩] = some "10009" :=
  (C5_finish_target (some ⟨9, "10009", "L"⟩) [⟨"300", "admin"⟩]).1
    ⟨9, "10009", "L"⟩ rfl

/-- C9: the edit diff of equal states is empty: applying the same form
twice makes the second diff a no-op ChangeSet (no changes, no
notify-set) with no message sent, and editing an episode with its own
current values is a complete no-op that leaves the episode unchanged. -/
theorem C9_applyEdit_idempotent (ep : Episode) (form : EpisodeForm) :
    (applyEdit (applyEdit ep form).2 form).1 = ⟨[], ∅⟩ ∧
    editSendsMessage (applyEdit (applyEdit ep form).2 form).1 = false ∧
    applyEdit ep (formOf ep) = (⟨[], ∅⟩, ep) := by
  refine ⟨?_, ?_, ?_⟩
  · simp [applyEdit, check_role_change]
  · simp [applyEdit, check_role_change, editSendsMessage]
  · simp [applyEdit, check_role_change, formOf]

/-- C10: the HTTP delete-episode returns "success" for every id — it
never reports NotFound — its only effect is removing the episodes with
that id, and when no such episode exists the table is unchanged. -/
theorem C10_delete_episode (db : List Episode) (i : Nat) :
    (delete_episode db i).2 = "success" ∧
    (delete_episode db i).1 = db.filter (fun e => e.id != i) ∧
    ((db.all fun e => e.id != i) = true → (delete_episode db i).1 = db) := by
  refine ⟨rfl, rfl, ?_⟩
  intro h
  simp only [delete_episode]
  exact List.filter_eq_self.mpr (fun a ha => List.all_eq_true.mp h a ha)

/-- Witness for C10: deleting an id that is not in the table succeeds
and leaves the table unchanged. -/
theorem C10_witness :
    (delete_episode [⟨1, "g1", "P", "01", 1, none, none, none, none,
      none, none, none, none⟩] 99).1 =
      [⟨1, "g1", "P", "01", 1, none, none, none, none,
        none, none, none, none⟩] :=
  (C10_delete_episode [⟨1, "g1", "P", "01", 1, none, none, none, none,
    none, none, none, none⟩] 99).2.2 (by decide)

/-- Dict lookup after appending a fresh key finds the appended entry. -/
theorem lookupEp_append_fresh (l : List (String × JEpisode)) (k : String)
    (je : JEpisode) (h : lookupEp l k = none) :
    lookupEp (l ++ [(k, je)]) k = some je := by
  induction l with
  | nil => simp [lookupEp]
  | cons a l ih =>
    simp only [lookupEp, List.find?] at h ⊢
    cases ha : (a.1 == k) with
    | true => simp [ha] at h
    | false =>
      simp only [ha, List.cons_append] at h ⊢
      exact ih h

/-- C2 (amended): the JSON-store `add_project_episode` copies the
project's current default staff lists by value into the fresh episode —
a snapshot: subsequent `set_default_staff` / `add_default_staff` edits
of the project defaults leave the created episode's lists unchanged. -/
theorem C2_snapshot (d : ProjectData) (k : String) (r : JRole) (m : String)
    (h : lookupEp d.episodes k = none) :
    lookupEp (add_project_episode d k).episodes k =
      some ⟨d.defaultStaff.transStaff, d.defaultStaff.proofStaff,
        d.defaultStaff.typeStaff, false⟩ ∧
    lookupEp (set_default_staff (add_project_episode d k) r m).episodes k =
      some ⟨d.defaultStaff.transStaff, d.defaultStaff.proofStaff,
        d.defaultStaff.typeStaff, false⟩ ∧
    lookupEp (add_default_staff (add_project_episode d k) r m).episodes k =
      some ⟨d.defaultStaff.transStaff, d.defaultStaff.proofStaff,
        d.defaultStaff.typeStaff, false⟩ := by
  have hbase : lookupEp (add_project_episode d k).episodes k =
      some ⟨d.defaultStaff.transStaff, d.defaultStaff.proofStaff,
        d.defaultStaff.typeStaff, false⟩ := by
    simp only [add_project_episode, h, Option.isSome_none, Bool.false_eq_true,
      if_false]
    exact lookupEp_append_fresh d.episodes k _ h
  exact ⟨hbase, hbase, hbase⟩

/-- Counterexample for C2: the HTTP `add_episode` fills the new
episode's translator slot from the submitted form, not from the
project's default translator. -/
theorem C2_counterexample :
    (add_episode 7 ⟨"P", "g1", none, some ⟨1, "10001", "A"⟩, none, none, none⟩
      ⟨"01", some ⟨2, "10002", "B"⟩, none, none, none,
        none, none, none, none⟩).translator = some ⟨2, "10002", "B"⟩ ∧
    (⟨"P", "g1", none, some ⟨1, "10001", "A"⟩, none, none,
      none⟩ : Project).default_translator = some ⟨1, "10001", "A"⟩ ∧
    (add_episode 7 ⟨"P", "g1", none, some ⟨1, "10001", "A"⟩, none, none, none⟩
      ⟨"01", some ⟨2, "10002", "B"⟩, none, none, none,
        none, none, none, none⟩).translator ≠
      (⟨"P", "g1", none, some ⟨1, "10001", "A"⟩, none, none,
        none⟩ : Project).default_translator := by
  decide

/-- Witness for C2: a fresh episode key in a concrete store gets the
default staff lists, and they survive a later default edit. -/
theorem C2_witness :
    lookupEp (add_project_episode ⟨⟨["t1"], ["p1"], []⟩, []⟩ "5").episodes "5" =
      some ⟨["t1"], ["p1"], [], false⟩ ∧
    lookupEp (set_default_staff (add_project_episode ⟨⟨["t1"], ["p1"], []⟩, []⟩ "5")
      .translate "t2").episodes "5" = some ⟨["t1"], ["p1"], [], false⟩ :=
  ⟨(C2_snapshot ⟨⟨["t1"], ["p1"], []⟩, []⟩ "5" .translate "t2" (by decide)).1,
    (C2_snapshot ⟨⟨["t1"], ["p1"], []⟩, []⟩ "5" .translate "t2" (by decide)).2.1⟩

/-- C4 (amended): `check_role_change` compares deadlines by full
timestamp equality: an edit that changes only the time-of-day of a
stage deadline, keeping the assignee and the calendar date fixed, still
produces a DDL change line and adds that stage's assignee (when one is
set) to the notify-set. -/
theorem C4_ddl_timestamp_diff (label : String) (u : Option User)
    (o n : DateTime) (_hdate : o.date = n.date) (hne : o ≠ n) :
    (check_role_change label u u (some o) (some n)).1 =
      [label ++ "DDL: " ++ fmt_date (some o) ++ " -> " ++ fmt_date (some n)] ∧
    (check_role_change label u u (some o) (some n)).2 =
      (match u with | some x => {x.qq_id} | none => (∅ : Finset String)) := by
  have hne' : (some o : Option DateTime) ≠ some n := by simpa using hne
  constructor
  · simp [check_role_change, hne']
  · cases u <;> simp [check_role_change, hne']

/-- Witness for C4 (amended): concrete same-date, different-time edit. -/
theorem C4_witness :
    (check_role_change "翻译" (some ⟨1, "10001", "A"⟩) (some ⟨1, "10001", "A"⟩)
      (some ⟨100, 540⟩) (some ⟨100, 720⟩)).1 =
      ["翻译DDL: " ++ fmt_date (some ⟨100, 540⟩) ++ " -> " ++ fmt_date (some ⟨100, 720⟩)] ∧
    (check_role_change "翻译" (some ⟨1, "10001", "A"⟩) (some ⟨1, "10001", "A"⟩)
      (some ⟨100, 540⟩) (some ⟨100, 720⟩)).2 = {"10001"} :=
  C4_ddl_timestamp_diff "翻译" (some ⟨1, "10001", "A"⟩) ⟨100, 540⟩ ⟨100, 720⟩
    rfl (by decide)

/-- Counterexample for C4: through the whole `applyEdit` diff, changing
only the translation deadline's time-of-day (same calendar date, same
assignees) yields a nonempty change list and mentions the stage's
assignee — the claim's "no change line, nobody notified" fails. -/
theorem C4_counterexample :
    ((⟨100, 540⟩ : DateTime).date = (⟨100, 720⟩ : DateTime).date) ∧
    (applyEdit
      ⟨1, "g1", "P", "01", 1, some ⟨1, "10001", "A"⟩, none, none, none,
        some ⟨100, 540⟩, none, none, none⟩
      ⟨"01", 1, some ⟨1, "10001", "A"⟩, none, none, none,
        some ⟨100, 720⟩, none, none, none⟩).1.changes ≠ [] ∧
    "10001" ∈ (applyEdit
      ⟨1, "g1", "P", "01", 1, some ⟨1, "10001", "A"⟩, none, none, none,
        some ⟨100, 540⟩, none, none, none⟩
      ⟨"01", 1, some ⟨1, "10001", "A"⟩, none, none, none,
        some ⟨100, 720⟩, none, none, none⟩).1.mentions := by
  refine ⟨rfl, ?_, ?_⟩ <;> simp [applyEdit, check_role_change]

/-- C3 (amended): in `check_and_send_broadcast` urgency is a total
function of the two calendar dates: overdue with magnitude
(today − deadline date) when the deadline's date is strictly before
today, due-today on equality, not urgent after; two deadlines on the
same date classify identically regardless of time-of-day. -/
theorem C3_broadcast_urgency (today : Int) (d d' : DateTime)
    (hd : d.date = d'.date) :
    urgency_of today d = urgency_of today d' ∧
    (d.date < today → urgency_of today d = some (.overdue (today - d.date))) ∧
    (d.date = today → urgency_of today d = some .dueToday) ∧
    (today < d.date → urgency_of today d = none) := by
  refine ⟨by simp [urgency_of, hd], ?_, ?_, ?_⟩
  · intro h
    simp [urgency_of, h]
  · intro h
    simp [urgency_of, h]
  · intro h
    unfold urgency_of
    rw [if_neg (by omega), if_neg (by simp only [beq_iff_eq]; omega)]

/-- Witness for C3 (amended): a deadline dated yesterday is overdue by
one day, and its time-of-day does not matter. -/
theorem C3_witness :
    urgency_of 100 ⟨99, 300⟩ = some (.overdue (100 - 99)) ∧
    urgency_of 100 ⟨99, 300⟩ = urgency_of 100 ⟨99, 900⟩ :=
  ⟨(C3_broadcast_urgency 100 ⟨99, 300⟩ ⟨99, 900⟩ rfl).2.1 (by decide),
    (C3_broadcast_urgency 100 ⟨99, 300⟩ ⟨99, 900⟩ rfl).1⟩

/-- Counterexample for C3: the scheduled scan (`check_deadlines`)
compares full timestamps.  Two episodes whose translation deadlines
fall on the same calendar date — today's — are classified differently
depending on the time-of-day: the one whose time has passed is
broadcast (as overdue), the one later today is not reported at all
(there is no due-today class on this path). -/
theorem C3_counterexample :
    ((⟨100, 540⟩ : DateTime).date = (⟨100, 660⟩ : DateTime).date) ∧
    check_deadlines ⟨100, 600⟩
      [⟨1, "g1", "P", "01", 1, none, none, none, none,
        some ⟨100, 540⟩, none, none, none⟩] ≠ [] ∧
    check_deadlines ⟨100, 600⟩
      [⟨1, "g1", "P", "01", 1, none, none, none, none,
        some ⟨100, 660⟩, none, none, none⟩] = [] := by
  decide

/-- Appending an alert to the grouped accumulator adds at most the
alert's group id to the key set. -/
theorem mem_addAlert_keys (acc : List (String × List OverdueAlert))
    (gid : String) (a : OverdueAlert) (g : String) :
    g ∈ (addAlert acc gid a).map Prod.fst ↔ g ∈ acc.map Prod.fst ∨ g = gid := by
  induction acc with
  | nil => simp [addAlert]
  | cons p acc ih =>
    obtain ⟨pg, pl⟩ := p
    by_cases h : pg = gid
    · subst h
      simp only [addAlert, beq_self_eq_true, if_true, List.map_cons,
        List.mem_cons]
      tauto
    · simp only [addAlert, beq_iff_eq, h, if_false, List.map_cons,
        List.mem_cons, ih]
      tauto

/-- The key set of the scan fold: a group appears iff it was already in
the accumulator or some scanned episode of that group was flagged. -/
theorem mem_scan_fold_keys (now : DateTime) (l : List Episode)
    (acc : List (String × List OverdueAlert)) (g : String) :
    g ∈ (l.foldl (scanStep now) acc).map Prod.fst ↔
      g ∈ acc.map Prod.fst ∨
        ∃ ep, ep ∈ l ∧ ep.group_id = g ∧ (scanEpisode now ep).isSome := by
  induction l generalizing acc with
  | nil => simp
  | cons e l ih =>
    simp only [List.foldl_cons, ih, List.mem_cons]
    cases hscan : scanEpisode now e with
    | none =>
      simp only [scanStep, hscan]
      constructor
      · rintro (h | ⟨ep, hmem, hgid, hs⟩)
        · exact Or.inl h
        · exact Or.inr ⟨ep, Or.inr hmem, hgid, hs⟩
      · rintro (h | ⟨ep, hmem | hmem, hgid, hs⟩)
        · exact Or.inl h
        · subst hmem
          rw [hscan] at hs
          cases hs
        · exact Or.inr ⟨ep, hmem, hgid, hs⟩
    | some a =>
      simp only [scanStep, hscan, mem_addAlert_keys]
      constructor
      · rintro ((h | h) | ⟨ep, hmem, hgid, hs⟩)
        · exact Or.inl h
        · exact Or.inr ⟨e, Or.inl rfl, h.symm, by rw [hscan]; rfl⟩
        · exact Or.inr ⟨ep, Or.inr hmem, hgid, hs⟩
      · rintro (h | ⟨ep, hmem | hmem, hgid, hs⟩)
        · exact Or.inl (Or.inl h)
        · subst hmem
          exact Or.inl (Or.inr hgid.symm)
        · exact Or.inr ⟨ep, hmem, hgid, hs⟩

/-- An episode outside statuses 1..3 is never flagged by the scan. -/
theorem scanEpisode_inactive (now : DateTime) (ep : Episode)
    (h : (ep.status == 1 || ep.status == 2 || ep.status == 3) = false) :
    scanEpisode now ep = none := by
  simp only [Bool.or_eq_false_iff] at h
  simp [scanEpisode, h.1.1, h.1.2, h.2]

/-- C1 (amended): the scheduled deadline broadcast runs exactly at the
fixed cron minute 10:00 and then messages exactly the groups that have
at least one episode flagged by the scan (an active episode whose
current stage's deadline timestamp is before now); no group-setting
gate is involved. -/
theorem C1_scheduled_run_characterization (t : WallClock) (now : DateTime)
    (eps : List Episode) (g : String) :
    g ∈ scheduled_run t now eps ↔
      (t = ⟨10, 0⟩ ∧
        ∃ ep, ep ∈ eps ∧ ep.group_id = g ∧ (scanEpisode now ep).isSome) := by
  unfold scheduled_run
  by_cases ht : cron_matches t = true
  · have ht' : t = ⟨10, 0⟩ := by
      obtain ⟨th, tm⟩ := t
      simp only [cron_matches, Bool.and_eq_true, beq_iff_eq] at ht
      simp [ht.1, ht.2]
    rw [if_pos ht]
    unfold scheduled_broadcast_groups check_deadlines
    rw [mem_scan_fold_keys]
    simp only [List.map_nil, List.not_mem_nil, false_or]
    constructor
    · rintro ⟨ep, hmem, hgid, hs⟩
      exact ⟨ht', ep, (List.mem_filter.mp hmem).1, hgid, hs⟩
    · rintro ⟨-, ep, hmem, hgid, hs⟩
      refine ⟨ep, List.mem_filter.mpr ⟨hmem, ?_⟩, hgid, hs⟩
      by_contra hact
      rw [Bool.not_eq_true] at hact
      rw [scanEpisode_inactive now ep hact] at hs
      cases hs
  · rw [if_neg ht]
    simp only [List.not_mem_nil, false_iff, not_and]
    intro ht'
    subst ht'
    exact absurd (by decide) ht

/-- Counterexample for C1: a group stores its setting as
broadcasting-disabled at "12:00" (via `update_setting`), so under the
claim it must receive no scheduled broadcast at 10:00 — yet the
scheduled run at wall-clock 10:00 still broadcasts to it, because the
cron job never reads `GroupSetting`. -/
theorem C1_counterexample :
    spec_scheduled_gate (update_setting [] ⟨"g1", false, "12:00"⟩) "g1" "10:00" = false ∧
    scheduled_run ⟨10, 0⟩ ⟨100, 600⟩
      [⟨1, "g1", "P", "01", 1, none, none, none, none,
        some ⟨99, 0⟩, none, none, none⟩] = ["g1"] := by
  decide
